import Mathlib

/-!
Verification of the browser-agent HTTP service
(`src/backend/services/browser-agent/main.py`).

The service has three POST task-execution routes (`/browse`, `/scroll-app`,
`/search-document`) and a `GET /health` probe.  Each POST handler optionally
validates `app_url`, builds a prompt string, constructs an LLM client and an
agent, runs the agent, and wraps the outcome into a uniform response envelope
`{success, result, error, task_id}`.

The external agent invocation (`ChatOpenAI(...)`, `Agent(...)`, `await
agent.run()`) is the only effectful part; it is modelled by an injected
`AgentOutcome`: either the run returned a result `R` (whose `str(R)` is taken
by a supplied stringifier), or an exception with message `str(e)` was raised
anywhere inside the handler `try` block.  The Python `hash` on strings is an
opaque per-process function, modelled as a parameter `pyHash : String → Int`.
-/

namespace BrowserAgent

/-- Pydantic model `BrowserTaskRequest` (main.py lines 14-18):
`task: str`, `app_url: Optional[str] = None`, `headless: bool = True`,
`max_turns: int = 10`. -/
structure BrowserTaskRequest where
  task : String
  app_url : Option String := none
  headless : Bool := true
  max_turns : Int := 10
deriving Repr, DecidableEq

/-- Pydantic model `BrowserTaskResponse` (main.py lines 20-24):
`success: bool`, `result: str`, `error: Optional[str] = None`,
`task_id: str`. -/
structure BrowserTaskResponse where
  success : Bool
  result : String
  error : Option String := none
  task_id : String
deriving Repr, DecidableEq

/-- What a handler produces at the HTTP level: a normal (2xx) JSON response
body, or a raised `HTTPException(status_code, detail)`. -/
inductive HandlerResult where
  | ok (resp : BrowserTaskResponse)
  | httpError (status : Nat) (detail : String)
deriving Repr, DecidableEq

/-- Whether a `HandlerResult` is an HTTP success (2xx) response. -/
def HandlerResult.is2xx : HandlerResult → Bool
  | .ok _ => true
  | .httpError _ _ => false

/-- The `task_id` field of the response, when the result is a 2xx envelope. -/
def HandlerResult.taskId? : HandlerResult → Option String
  | .ok resp => some resp.task_id
  | .httpError _ _ => none

/-- Outcome of the external construct-and-run block inside a handler `try`:
either `agent.run()` returned a result of type `ρ`, or some step raised an
exception whose `str(e)` is `message`. -/
inductive AgentOutcome (ρ : Type) where
  | ok (result : ρ)
  | exn (message : String)

/-- Observable behaviour of one handler call: whether the external
construct-and-run block was entered, the `task=` string handed to `Agent`
when it was, and the HTTP-level result. -/
structure HandlerOutput where
  agentInvoked : Bool
  prompt : Option String
  result : HandlerResult
deriving Repr, DecidableEq

/-- Python truthiness test `not request.app_url` used by the guards in
`scroll_through_app` and `search_document`: `None` and the empty string are
falsy, every non-empty string is truthy. -/
def pyFalsyStrOpt : Option String → Bool
  | none => true
  | some s => s.isEmpty

/-- Handler for `POST /browse` (main.py lines 30-60).  No validation guard;
the prompt passed to `Agent` is `request.task` itself; both branches build
`task_id = f"task_{hash(request.task)}"`. -/
def browse_web {ρ : Type} (pyStr : ρ → String) (pyHash : String → Int)
    (request : BrowserTaskRequest) (run : AgentOutcome ρ) : HandlerOutput :=
  match run with
  | .ok result =>
      { agentInvoked := true
        prompt := some request.task
        result := .ok { success := true, result := pyStr result, error := none,
                        task_id := "task_" ++ toString (pyHash request.task) } }
  | .exn e =>
      { agentInvoked := true
        prompt := some request.task
        result := .ok { success := false, result := "", error := some e,
                        task_id := "task_" ++ toString (pyHash request.task) } }

/-- The part of the `/scroll-app` f-string template before
`{request.app_url}` (main.py line 74). -/
def scrollPre : String :=
  "\n        Navigate to "

/-- The part of the `/scroll-app` f-string template after
`{request.app_url}` (main.py lines 74-95). -/
def scrollPost : String :=
  " and perform a comprehensive exploration:\n        \n        1. First, take a screenshot to see the initial state\n        2. Scroll through the entire application systematically:\n           - Scroll down page by page\n           - Look for navigation menus, buttons, and interactive elements\n           - Click on different sections/links to explore different pages\n           - Document all the pages and features you discover\n        3. For each page/section you visit:\n           - Take a screenshot\n           - Extract the page content and structure\n           - Note any forms, buttons, or interactive elements\n           - Document the URL and page title\n        4. Create a comprehensive summary of:\n           - All pages visited\n           - Key features and functionality discovered\n           - Navigation structure\n           - Interactive elements found\n           - Any forms or user inputs available\n        \n        Be thorough and systematic in your exploration. Take your time to scroll through everything.\n        "

/-- The `scroll_task` f-string of main.py lines 73-95, as a function of the
interpolated `request.app_url`. -/
def scroll_task (app_url : String) : String :=
  scrollPre ++ app_url ++ scrollPost

/-- Handler for `POST /scroll-app` (main.py lines 62-118).  Guard: `if not
request.app_url: raise HTTPException(400, ...)` before the `try`; otherwise
the prompt is `scroll_task` built from `app_url`, and both branches build
`task_id = f"scroll_{hash(request.app_url)}"`. -/
def scroll_through_app {ρ : Type} (pyStr : ρ → String) (pyHash : String → Int)
    (request : BrowserTaskRequest) (run : AgentOutcome ρ) : HandlerOutput :=
  if pyFalsyStrOpt request.app_url then
    { agentInvoked := false
      prompt := none
      result := .httpError 400 "app_url is required for scrolling" }
  else
    let url := request.app_url.getD ""
    match run with
    | .ok result =>
        { agentInvoked := true
          prompt := some (scroll_task url)
          result := .ok { success := true, result := pyStr result, error := none,
                          task_id := "scroll_" ++ toString (pyHash url) } }
    | .exn e =>
        { agentInvoked := true
          prompt := some (scroll_task url)
          result := .ok { success := false, result := "", error := some e,
                          task_id := "scroll_" ++ toString (pyHash url) } }

/-- The part of the `/search-document` f-string template before
`{request.app_url}` (main.py line 132). -/
def searchPre : String :=
  "\n        Navigate to "

/-- The part of the `/search-document` f-string between `{request.app_url}`
and the first `{request.task}` (main.py line 132). -/
def searchMid1 : String :=
  " and search for the following: \""

/-- The part of the `/search-document` f-string between the first and the
second `{request.task}` (main.py lines 132-141). -/
def searchMid2 : String :=
  "\"\n        \n        Perform a thorough search by:\n        1. Using any search functionality on the site\n        2. Browsing through different sections and pages\n        3. Looking for relevant content, documentation, or information\n        4. Extracting and summarizing any relevant findings\n        5. Providing specific URLs where the information was found\n        \n        Focus on finding comprehensive information related to: "

/-- The part of the `/search-document` f-string after the second
`{request.task}` (main.py lines 141-142). -/
def searchPost : String :=
  "\n        "

/-- The `search_task` f-string of main.py lines 131-142, as a function of the
interpolated `request.app_url` and `request.task`. -/
def search_task (app_url task : String) : String :=
  searchPre ++ app_url ++ searchMid1 ++ task ++ searchMid2 ++ task ++ searchPost

/-- Handler for `POST /search-document` (main.py lines 120-166).  Guard: `if
not request.app_url: raise HTTPException(400, ...)` before the `try`;
otherwise the prompt is `search_task` built from `app_url` and `task`, and
both branches build `task_id = f"search_{hash(request.task)}"`. -/
def search_document {ρ : Type} (pyStr : ρ → String) (pyHash : String → Int)
    (request : BrowserTaskRequest) (run : AgentOutcome ρ) : HandlerOutput :=
  if pyFalsyStrOpt request.app_url then
    { agentInvoked := false
      prompt := none
      result := .httpError 400 "app_url is required for document search" }
  else
    let url := request.app_url.getD ""
    match run with
    | .ok result =>
        { agentInvoked := true
          prompt := some (search_task url request.task)
          result := .ok { success := true, result := pyStr result, error := none,
                          task_id := "search_" ++ toString (pyHash request.task) } }
    | .exn e =>
        { agentInvoked := true
          prompt := some (search_task url request.task)
          result := .ok { success := false, result := "", error := some e,
                          task_id := "search_" ++ toString (pyHash request.task) } }

/-- Static payload of `GET /health` (main.py lines 26-28). -/
structure HealthPayload where
  status : String
  service : String
deriving Repr, DecidableEq

/-- Handler for `GET /health` (main.py lines 26-28): a pure constant; it
takes no `AgentOutcome` and cannot fail. -/
def health_check : HealthPayload :=
  { status := "ok", service := "browser-agent" }

/-- Pydantic validation of an incoming JSON body against
`BrowserTaskRequest` (main.py lines 14-18): `task` is required (absent ⇒
422, no handler runs); `app_url` defaults to `None`; `headless` defaults to
`True`; `max_turns` defaults to `10`.  No constraint restricts `task` to be
non-empty. -/
def parseBrowserTaskRequest (task : Option String) (app_url : Option String)
    (headless : Option Bool) (max_turns : Option Int) :
    Option BrowserTaskRequest :=
  match task with
  | none => none
  | some t =>
      some { task := t, app_url := app_url,
             headless := headless.getD true, max_turns := max_turns.getD 10 }

/-- `needle` occurs literally inside `haystack`. -/
def containsSubstring (needle haystack : String) : Prop :=
  ∃ pre post : String, haystack = pre ++ needle ++ post

/-- C3: for every request to `/scroll-app` or `/search-document` in which
`app_url` is missing (`None`), the handler raises `HTTPException` with
status 400 and the agent (LLM client construction and agent run) is never
invoked, whatever outcome the agent would have produced. -/
theorem missing_app_url_rejected {ρ : Type} (pyStr : ρ → String)
    (pyHash : String → Int) (request : BrowserTaskRequest)
    (hmiss : request.app_url = none) (run : AgentOutcome ρ) :
    scroll_through_app pyStr pyHash request run =
      { agentInvoked := false, prompt := none,
        result := .httpError 400 "app_url is required for scrolling" } ∧
    search_document pyStr pyHash request run =
      { agentInvoked := false, prompt := none,
        result := .httpError 400 "app_url is required for document search" } := by
  constructor <;> simp [scroll_through_app, search_document, pyFalsyStrOpt, hmiss]

/-- Witness for C3 at the concrete request `{task := "t"}` (no `app_url`)
and the outcome `ok "R"`. -/
theorem missing_app_url_rejected_witness :
    ({ task := "t" } : BrowserTaskRequest).app_url = none ∧
    scroll_through_app (fun s : String => s) (fun s => (s.length : Int))
        { task := "t" } (.ok "R") =
      { agentInvoked := false, prompt := none,
        result := .httpError 400 "app_url is required for scrolling" } :=
  ⟨rfl,
   (missing_app_url_rejected (fun s : String => s) (fun s => (s.length : Int))
      { task := "t" } rfl (.ok "R")).1⟩

/-- C4: for every valid request to `/browse` and every agent outcome, the
prompt string passed to the agent equals the caller-supplied `task` field
exactly. -/
theorem browse_prompt_identity {ρ : Type} (pyStr : ρ → String)
    (pyHash : String → Int) (request : BrowserTaskRequest)
    (run : AgentOutcome ρ) :
    (browse_web pyStr pyHash request run).prompt = some request.task := by
  cases run <;> rfl

/-- C7: `GET /health` returns exactly
`{status := "ok", service := "browser-agent"}`; the handler is a pure total
constant, so it takes no agent outcome, performs no external call, and
cannot fail. -/
theorem health_check_static :
    health_check = { status := "ok", service := "browser-agent" } := rfl

/-- C9: the `/scroll-app` handler output is independent of the `task`
field: two requests identical except for `task` produce the identical
handler output, hence the identical agent prompt and the identical
`task_id`. -/
theorem scroll_independent_of_task {ρ : Type} (pyStr : ρ → String)
    (pyHash : String → Int) (request : BrowserTaskRequest) (t₁ t₂ : String)
    (run : AgentOutcome ρ) :
    scroll_through_app pyStr pyHash { request with task := t₁ } run =
    scroll_through_app pyStr pyHash { request with task := t₂ } run := by
  cases run <;> rfl

/-- C1: for every POST task-execution route and every agent outcome: if
the run returns a result `R`, the handler returns the envelope
`{success := true, result := str R, error := none, task_id}`; if
construction or run raises an exception with message `M`, the handler
catches it and returns `{success := false, result := "", error := some M,
task_id}`, both with an HTTP 2xx status — a non-2xx status arises exactly
when the required `app_url` guard of `/scroll-app` or `/search-document`
rejects the request. -/
theorem envelope_contract {ρ : Type} (pyStr : ρ → String)
    (pyHash : String → Int) (request : BrowserTaskRequest) :
    (∀ R, (browse_web pyStr pyHash request (.ok R)).result =
        .ok { success := true, result := pyStr R, error := none,
              task_id := "task_" ++ toString (pyHash request.task) }) ∧
    (∀ M, (browse_web pyStr pyHash request (.exn M)).result =
        .ok { success := false, result := "", error := some M,
              task_id := "task_" ++ toString (pyHash request.task) }) ∧
    (pyFalsyStrOpt request.app_url = false →
      (∀ R, (scroll_through_app pyStr pyHash request (.ok R)).result =
          .ok { success := true, result := pyStr R, error := none,
                task_id := "scroll_" ++
                  toString (pyHash (request.app_url.getD "")) }) ∧
      (∀ M, (scroll_through_app pyStr pyHash request (.exn M)).result =
          .ok { success := false, result := "", error := some M,
                task_id := "scroll_" ++
                  toString (pyHash (request.app_url.getD "")) })) ∧
    (pyFalsyStrOpt request.app_url = false →
      (∀ R, (search_document pyStr pyHash request (.ok R)).result =
          .ok { success := true, result := pyStr R, error := none,
                task_id := "search_" ++ toString (pyHash request.task) }) ∧
      (∀ M, (search_document pyStr pyHash request (.exn M)).result =
          .ok { success := false, result := "", error := some M,
                task_id := "search_" ++ toString (pyHash request.task) })) ∧
    (∀ run : AgentOutcome ρ,
      (browse_web pyStr pyHash request run).result.is2xx = true ∧
      ((scroll_through_app pyStr pyHash request run).result.is2xx = false ↔
        pyFalsyStrOpt request.app_url = true) ∧
      ((search_document pyStr pyHash request run).result.is2xx = false ↔
        pyFalsyStrOpt request.app_url = true)) := by
  refine ⟨fun R => rfl, fun M => rfl, fun hok => ⟨fun R => ?_, fun M => ?_⟩,
    fun hok => ⟨fun R => ?_, fun M => ?_⟩, fun run => ⟨?_, ?_, ?_⟩⟩
  · simp [scroll_through_app, hok]
  · simp [scroll_through_app, hok]
  · simp [search_document, hok]
  · simp [search_document, hok]
  · cases run <;> rfl
  · cases hf : pyFalsyStrOpt request.app_url <;> cases run <;>
      simp [scroll_through_app, hf, HandlerResult.is2xx]
  · cases hf : pyFalsyStrOpt request.app_url <;> cases run <;>
      simp [search_document, hf, HandlerResult.is2xx]

/-- Witness for C1 at the concrete request
`{task := "q", app_url := some "u"}`: the guard hypothesis holds and the
success envelope of `/scroll-app` is exactly as stated. -/
theorem envelope_contract_witness :
    pyFalsyStrOpt (some "u") = false ∧
    (scroll_through_app (fun s : String => s) (fun s => (s.length : Int))
        { task := "q", app_url := some "u" } (.ok "R")).result =
      .ok { success := true, result := "R", error := none,
            task_id := "scroll_1" } := by
  refine ⟨by decide, ?_⟩
  have h := ((envelope_contract (fun s : String => s)
      (fun s => (s.length : Int))
      { task := "q", app_url := some "u" }).2.2.1 (by decide)).1 "R"
  simpa using h

/-- C2: for every request, `task_id` equals
`route_prefix ++ "_" ++ toString (hash input)` where the prefix is `task`
for `/browse`, `scroll` for `/scroll-app`, `search` for
`/search-document`, and the input is `task` for browse/search and
`app_url` for scroll; for a fixed request the success branch and the
failure branch compute the identical `task_id` (the equation below holds
for every outcome `run`). -/
theorem task_id_spec {ρ : Type} (pyStr : ρ → String) (pyHash : String → Int)
    (request : BrowserTaskRequest) :
    (∀ run : AgentOutcome ρ,
      (browse_web pyStr pyHash request run).result.taskId? =
        some ("task_" ++ toString (pyHash request.task))) ∧
    (pyFalsyStrOpt request.app_url = false →
      ∀ run : AgentOutcome ρ,
        (scroll_through_app pyStr pyHash request run).result.taskId? =
          some ("scroll_" ++ toString (pyHash (request.app_url.getD "")))) ∧
    (pyFalsyStrOpt request.app_url = false →
      ∀ run : AgentOutcome ρ,
        (search_document pyStr pyHash request run).result.taskId? =
          some ("search_" ++ toString (pyHash request.task))) := by
  refine ⟨fun run => ?_, fun hok run => ?_, fun hok run => ?_⟩
  · cases run <;> rfl
  · cases run <;> simp [scroll_through_app, hok, HandlerResult.taskId?]
  · cases run <;> simp [search_document, hok, HandlerResult.taskId?]

/-- Witness for C2 at the concrete request
`{task := "abc", app_url := some "xy"}` with `pyHash` the string length:
the scroll route hashes `app_url` (`task_id = "scroll_2"`) on the failure
branch too. -/
theorem task_id_spec_witness :
    pyFalsyStrOpt (some "xy") = false ∧
    (scroll_through_app (fun s : String => s) (fun s => (s.length : Int))
        { task := "abc", app_url := some "xy" } (.exn "boom")).result.taskId? =
      some ("scroll_" ++ toString ((2 : Nat) : Int)) := by
  refine ⟨by decide, ?_⟩
  have h := (task_id_spec (fun s : String => s) (fun s => (s.length : Int))
      { task := "abc", app_url := some "xy" }).2.1 (by decide)
      (.exn "boom")
  simpa using h

/-- C5: the `/scroll-app` prompt is a deterministic function of `app_url`
alone — two handler calls whose requests agree on `app_url` produce the
same prompt whatever their other fields, stringifiers, hash functions and
outcomes are — and the prompt built for any `app_url` contains `app_url`
as a literal substring. -/
theorem scroll_prompt_spec {ρ₁ ρ₂ : Type} (pyStr₁ : ρ₁ → String)
    (pyStr₂ : ρ₂ → String) (pyHash₁ pyHash₂ : String → Int)
    (r₁ r₂ : BrowserTaskRequest) (run₁ : AgentOutcome ρ₁)
    (run₂ : AgentOutcome ρ₂) :
    (r₁.app_url = r₂.app_url →
      (scroll_through_app pyStr₁ pyHash₁ r₁ run₁).prompt =
      (scroll_through_app pyStr₂ pyHash₂ r₂ run₂).prompt) ∧
    (∀ url, containsSubstring url (scroll_task url)) := by
  constructor
  · intro hurl
    cases hf : pyFalsyStrOpt r₂.app_url <;> cases run₁ <;> cases run₂ <;>
      simp [scroll_through_app, hurl, hf]
  · intro url
    exact ⟨scrollPre, scrollPost, rfl⟩

/-- Witness for C5: two concrete `/scroll-app` requests that share
`app_url = some "u"` but differ in `task`, `headless`, `max_turns`, hash
function and outcome produce the identical prompt. -/
theorem scroll_prompt_spec_witness :
    ({ task := "a", app_url := some "u" } : BrowserTaskRequest).app_url =
      ({ task := "b", app_url := some "u", headless := false,
         max_turns := 3 } : BrowserTaskRequest).app_url ∧
    (scroll_through_app (fun s : String => s) (fun s => (s.length : Int))
        { task := "a", app_url := some "u" } (.ok "R")).prompt =
    (scroll_through_app (fun s : String => s) (fun _ => (0 : Int))
        { task := "b", app_url := some "u", headless := false,
          max_turns := 3 } (.exn "boom")).prompt :=
  ⟨rfl,
   (scroll_prompt_spec (fun s : String => s) (fun s : String => s)
      (fun s => (s.length : Int)) (fun _ => (0 : Int))
      { task := "a", app_url := some "u" }
      { task := "b", app_url := some "u", headless := false, max_turns := 3 }
      (.ok "R") (.exn "boom")).1 rfl⟩

/-- C6: the `/search-document` prompt is a deterministic function of
exactly `app_url` and `task` — two handler calls whose requests agree on
both produce the same prompt whatever their other fields, stringifiers,
hash functions and outcomes are — and the prompt built for any pair
contains both `app_url` and `task` as literal substrings. -/
theorem search_prompt_spec {ρ₁ ρ₂ : Type} (pyStr₁ : ρ₁ → String)
    (pyStr₂ : ρ₂ → String) (pyHash₁ pyHash₂ : String → Int)
    (r₁ r₂ : BrowserTaskRequest) (run₁ : AgentOutcome ρ₁)
    (run₂ : AgentOutcome ρ₂) :
    (r₁.app_url = r₂.app_url → r₁.task = r₂.task →
      (search_document pyStr₁ pyHash₁ r₁ run₁).prompt =
      (search_document pyStr₂ pyHash₂ r₂ run₂).prompt) ∧
    (∀ url task, containsSubstring url (search_task url task) ∧
      containsSubstring task (search_task url task)) := by
  constructor
  · intro hurl htask
    cases hf : pyFalsyStrOpt r₂.app_url <;> cases run₁ <;> cases run₂ <;>
      simp [search_document, hurl, htask, hf]
  · intro url task
    constructor
    · refine ⟨searchPre,
        searchMid1 ++ task ++ searchMid2 ++ task ++ searchPost, ?_⟩
      simp [search_task, String.append_assoc]
    · refine ⟨searchPre ++ url ++ searchMid1,
        searchMid2 ++ task ++ searchPost, ?_⟩
      simp [search_task, String.append_assoc]

/-- Witness for C6: two concrete `/search-document` requests sharing
`app_url = some "u"` and `task = "q"` but differing elsewhere produce the
identical prompt. -/
theorem search_prompt_spec_witness :
    ({ task := "q", app_url := some "u" } : BrowserTaskRequest).app_url =
      ({ task := "q", app_url := some "u", headless := false,
         max_turns := 3 } : BrowserTaskRequest).app_url ∧
    ({ task := "q", app_url := some "u" } : BrowserTaskRequest).task =
      ({ task := "q", app_url := some "u", headless := false,
         max_turns := 3 } : BrowserTaskRequest).task ∧
    (search_document (fun s : String => s) (fun s => (s.length : Int))
        { task := "q", app_url := some "u" } (.ok "R")).prompt =
    (search_document (fun s : String => s) (fun _ => (0 : Int))
        { task := "q", app_url := some "u", headless := false,
          max_turns := 3 } (.exn "boom")).prompt :=
  ⟨rfl, rfl,
   (search_prompt_spec (fun s : String => s) (fun s : String => s)
      (fun s => (s.length : Int)) (fun _ => (0 : Int))
      { task := "q", app_url := some "u" }
      { task := "q", app_url := some "u", headless := false, max_turns := 3 }
      (.ok "R") (.exn "boom")).1 rfl rfl⟩

/-- C8 counterexample: a body whose `task` is the empty string passes
pydantic validation (it parses to a valid `BrowserTaskRequest`), and the
`/browse` handler on that request enters the agent construct-and-run path
and returns a 2xx envelope — the empty-string `task` is NOT rejected as a
client input error. -/
theorem empty_task_not_rejected :
    parseBrowserTaskRequest (some "") none none none =
      some { task := "", app_url := none, headless := true,
             max_turns := 10 } ∧
    (browse_web (fun s : String => s) (fun s => (s.length : Int))
        { task := "" } (.ok "R")).agentInvoked = true ∧
    (browse_web (fun s : String => s) (fun s => (s.length : Int))
        { task := "" } (.ok "R")).result.is2xx = true :=
  ⟨rfl, rfl, rfl⟩

/-- C8 (amended): the `task` field is required — a body without `task`
fails pydantic validation and no handler runs — but nothing constrains it
to be non-empty: any string, including the empty string, yields a valid
`BrowserTaskRequest`, and the `/browse` handler always proceeds to the
agent invocation. -/
theorem task_required_defaults_applied :
    (∀ a h m, parseBrowserTaskRequest none a h m = none) ∧
    (∀ t a h m, parseBrowserTaskRequest (some t) a h m =
        some { task := t, app_url := a, headless := h.getD true,
               max_turns := m.getD 10 }) ∧
    (∀ {ρ : Type} (pyStr : ρ → String) (pyHash : String → Int)
        (request : BrowserTaskRequest) (run : AgentOutcome ρ),
      (browse_web pyStr pyHash request run).agentInvoked = true) := by
  refine ⟨fun a h m => rfl, fun t a h m => rfl,
    fun pyStr pyHash request run => ?_⟩
  cases run <;> rfl

/-- C10: on `/scroll-app` and `/search-document`, an `app_url` that is
present but equal to the empty string is treated exactly like an absent
`app_url`: the handler output coincides with the output for the same
request with `app_url := none`, the status is 400, and the agent is never
invoked (the guard tests Python falsiness, not mere presence). -/
theorem empty_app_url_rejected {ρ : Type} (pyStr : ρ → String)
    (pyHash : String → Int) (request : BrowserTaskRequest)
    (hempty : request.app_url = some "") (run : AgentOutcome ρ) :
    scroll_through_app pyStr pyHash request run =
      scroll_through_app pyStr pyHash { request with app_url := none } run ∧
    search_document pyStr pyHash request run =
      search_document pyStr pyHash { request with app_url := none } run ∧
    scroll_through_app pyStr pyHash request run =
      { agentInvoked := false, prompt := none,
        result := .httpError 400 "app_url is required for scrolling" } ∧
    search_document pyStr pyHash request run =
      { agentInvoked := false, prompt := none,
        result := .httpError 400 "app_url is required for document search" } := by
  have h0 : ("" : String).isEmpty = true := by decide
  refine ⟨?_, ?_, ?_, ?_⟩ <;>
    simp [scroll_through_app, search_document, pyFalsyStrOpt, hempty, h0]

/-- Witness for C10 at the concrete request
`{task := "t", app_url := some ""}` and outcome `ok "R"`. -/
theorem empty_app_url_rejected_witness :
    ({ task := "t", app_url := some "" } : BrowserTaskRequest).app_url =
      some "" ∧
    scroll_through_app (fun s : String => s) (fun s => (s.length : Int))
        { task := "t", app_url := some "" } (.ok "R") =
      { agentInvoked := false, prompt := none,
        result := .httpError 400 "app_url is required for scrolling" } :=
  ⟨rfl,
   (empty_app_url_rejected (fun s : String => s) (fun s => (s.length : Int))
      { task := "t", app_url := some "" } rfl (.ok "R")).2.2.1⟩

end BrowserAgent
